import Mathlib

/-!
Verification development for the `rustitions` state-machine engine
(an in-progress Rust port of a Python state-machine library).

The definitions below are a shallow embedding of the code in `src/src/`.
The port is unfinished in places: several bodies are `todo!()` (a call that
panics at runtime) and a few bodies are entirely commented out.  A panic is
modelled as `Except.error ctx`, where the payload is the execution context
at the moment of the panic: no `todo!()` in this code base performs any
write before panicking, so the payload is always the unchanged input
context.  Code whose body is commented out of the source (the dispatch
discipline of `Machine::_process` and the trigger loop of
`Event::_process`) is modelled separately from the specification text and
clearly marked as such.
-/

namespace Rustitions

/-- Embedding of `TriggerFunction` (src/src/core.rs:20-23): a boxed callback
closure together with an optional name.  The closure field is omitted: no
implemented code path ever invokes it — the only call site that would,
`Machine::callback` (src/src/machine.rs:769-776), has body `todo!()` and
panics before touching its argument, and `TriggerFunction::execute` is never
reached from the transition pipeline.  The name is all that remains
observable. -/
structure TriggerFunction where
  name : Option String
deriving DecidableEq, Repr

/-- Embedding of `StateTrigger` (src/src/core.rs:76-81): an enter or exit
callback wrapper. -/
inductive StateTrigger
  | EnterTrigger (f : TriggerFunction)
  | ExitTrigger (f : TriggerFunction)
deriving DecidableEq, Repr

/-- Embedding of `StateTrigger::callback` (src/src/core.rs:105-110). -/
def StateTrigger.callback : StateTrigger → TriggerFunction
  | .EnterTrigger f => f
  | .ExitTrigger f => f

/-- Embedding of `State` (src/src/core.rs:120-128). -/
structure State where
  name : String
  ignore_invalid_triggers : Bool
  on_enter : List StateTrigger
  on_exit : List StateTrigger
deriving DecidableEq, Repr

/-- Embedding of `KeySet` (src/src/support.rs): a field-less placeholder. -/
structure KeySet
deriving DecidableEq, Repr

/-- Embedding of the `Error` enum (src/src/error.rs:8-36). -/
inductive Error
  | MachineError (msg : String)
  | ArgumentsError
  | InheritanceError (keys : KeySet) (msg : String)
  | InitialStateError
  | RegisteredStateError (s : String)
  | UnknownEventError (s : String)
  | TriggerNameError (s : String)
  | InsufficientStatesError
  | CallableError (s : String)
  | UnknownStateError (s : String)
  | MachineAttributeError (a : String) (b : String)
  | MachineEventAttributeError (a : String) (b : String)
deriving DecidableEq, Repr

/-- Embedding of `Machine` (src/src/machine.rs:41-56).  The field
`models: Vec<Model>` is omitted: `Model` is a type alias for `Machine`
(machine.rs:8), which would make the field recursive, and no code path
modelled here ever reads it.  The `states`, `events`, `prepare_event` and
`finalize_event` members are commented out of the source struct and so do
not exist. -/
structure Machine where
  before_state_change : List TriggerFunction
  after_state_change : List TriggerFunction
  queued : Bool
  send_event : Bool
  auto_transitions : Bool
  ignore_invalid_triggers : Bool
  name : String
  model_attribute : String
deriving DecidableEq, Repr

/-- `Model` is a type alias for `Machine` (src/src/machine.rs:8). -/
abbrev Model := Machine

/-- Embedding of `EventData` (src/src/event.rs:21-31).  The `event` field
(a name plus a machine reference, never read by the implemented pipeline)
and the `transition` field (never assigned by any implemented code, and
circular with `Transition`) are omitted. -/
structure EventData where
  state : State
  machine : Machine
  model : Model
  error : Option Error
  result : Bool

/-- Embedding of `ConditionFunction` (src/src/core.rs:251-254): a boxed
predicate over the event data, with an optional name.  Unlike
`TriggerFunction`, the predicate is kept because `Condition::check` names a
call to it (though, as proved below, that call is never reached). -/
structure ConditionFunction where
  function : EventData → Bool
  name : Option String

/-- Embedding of `ConditionFunction::execute` (src/src/core.rs:266-268). -/
def ConditionFunction.execute (f : ConditionFunction) (ed : EventData) : Bool :=
  f.function ed

/-- Embedding of `ConditionFunction::resolve_callable`
(src/src/core.rs:277-297): the body is `todo!()`, so every call panics.
The panic carries the (unchanged) context. -/
def ConditionFunction.resolve_callable (_f : ConditionFunction) (ed : EventData) :
    Except EventData ConditionFunction :=
  Except.error ed

/-- Embedding of `Condition` (src/src/core.rs:319-322). -/
structure Condition where
  func : ConditionFunction
  target : Bool

/-- Embedding of `Condition::check` (src/src/core.rs:348-354).  The source
first calls `self.func.resolve_callable(event_data)` (which is `todo!()`
and panics), then would test `send_event` and compare the predicate result
with `target`; the final raw-argument branch is itself a `todo!()`. -/
def Condition.check (c : Condition) (ed : EventData) : Except EventData Bool :=
  match c.func.resolve_callable ed with
  | Except.error e => Except.error e
  | Except.ok predicate =>
    if ed.machine.send_event then
      Except.ok (predicate.execute ed == c.target)
    else
      Except.error ed

/-- Embedding of `Transition` (src/src/core.rs:404-412).  The source wraps
the condition lists in `PotentialConditions` and the callback lists in
`PotentialTriggers`; both are plain newtype wrappers around a `Vec`, so the
lists are embedded directly. -/
structure Transition where
  source : String
  dest : Option String
  conditions : List Condition
  «unless» : List Condition
  before : List TriggerFunction
  after : List TriggerFunction
  prepare : List TriggerFunction

/-- Embedding of `Machine::callback` (src/src/machine.rs:769-776): the body
is `todo!()`, so the call panics before the wrapped closure is invoked. -/
def Machine.callback (_m : Machine) (_f : TriggerFunction) (ed : EventData) :
    Except EventData Unit :=
  Except.error ed

/-- Embedding of `Machine::callbacks` (src/src/machine.rs:751-756): invoke
each callback in order; a panic inside `callback` propagates. -/
def Machine.callbacks (m : Machine) (funcs : List TriggerFunction) (ed : EventData) :
    Except EventData Unit :=
  match funcs with
  | [] => Except.ok ()
  | f :: rest =>
    match m.callback f ed with
    | Except.error e => Except.error e
    | Except.ok _ => m.callbacks rest ed

/-- Embedding of `State::from_str` (src/src/core.rs:171-173): body is
`todo!()`; every call panics (modelled as `none`). -/
def State.from_str (_name : String) : Option State :=
  none

/-- Embedding of `Machine::get_state` (src/src/machine.rs:316-323): body is
`todo!()`; every call panics. -/
def Machine.get_state (_m : Machine) (_s : State) : Option State :=
  none

/-- Embedding of `Machine::set_state` (src/src/machine.rs:348-356): body is
`todo!()`; every call panics before any write to the model's state
attribute takes place. -/
def Machine.set_state (_m : Machine) (_s : State) (_model : Option Model) :
    Option Machine :=
  none

/-- Embedding of the free function `getattr` (src/src/machine.rs:10-12):
body is `todo!()`; every call panics. -/
def getattr (_model : Model) (_attribute : String) : Option State :=
  none

/-- Embedding of `EventData::update` (src/src/event.rs:61-65): body is
`todo!()`; every call panics. -/
def EventData.update (_ed : EventData) (_s : State) : Option EventData :=
  none

/-- Embedding of `State::exit` (src/src/core.rs:210-225): collect the
`on_exit` callbacks and run them through `Machine::callbacks`. -/
def State.exit (s : State) (ed : EventData) : Except EventData Unit :=
  ed.machine.callbacks (s.on_exit.map StateTrigger.callback) ed

/-- Embedding of `State::enter` (src/src/core.rs:190-206): collect the
`on_enter` callbacks and run them through `Machine::callbacks`. -/
def State.enter (s : State) (ed : EventData) : Except EventData Unit :=
  ed.machine.callbacks (s.on_enter.map StateTrigger.callback) ed

/-- Embedding of `Transition::change_state` (src/src/core.rs:534-548):
resolve the destination and source states via `State::from_str`, exit the
source state, set the new state, refresh the event data, enter the
destination state.  The very first step, `State::from_str`, is `todo!()`,
so in the source every call to `change_state` panics before anything else
happens; the remaining steps are embedded anyway, faithfully to the order
in the source. -/
def Transition.change_state (t : Transition) (ed : EventData) :
    Except EventData EventData :=
  match State.from_str (t.dest.getD "") with
  | none => Except.error ed
  | some dest_state =>
    match State.from_str t.source with
    | none => Except.error ed
    | some source_state =>
      match ed.machine.get_state source_state with
      | none => Except.error ed
      | some src =>
        match src.exit ed with
        | Except.error e => Except.error e
        | Except.ok _ =>
          match ed.machine.set_state dest_state (some ed.model) with
          | none => Except.error ed
          | some machine' =>
            let ed' : EventData := { ed with machine := machine' }
            match getattr ed'.model ed'.machine.model_attribute with
            | none => Except.error ed'
            | some st =>
              match ed'.update st with
              | none => Except.error ed'
              | some ed'' =>
                match ed''.machine.get_state dest_state with
                | none => Except.error ed''
                | some d =>
                  match d.enter ed'' with
                  | Except.error e => Except.error e
                  | Except.ok _ => Except.ok ed''

/-- Embedding of the loop body of `Transition::eval_conditions`
(src/src/core.rs:459-472): walk a condition list, returning `false` at the
first failing check and `true` if all pass; a panic inside `check`
propagates. -/
def Transition.eval_conditions_list (ed : EventData) :
    List Condition → Except EventData Bool
  | [] => Except.ok true
  | c :: rest =>
    match c.check ed with
    | Except.error e => Except.error e
    | Except.ok b =>
      if b then Transition.eval_conditions_list ed rest
      else Except.ok false

/-- Embedding of `Transition::eval_conditions` (src/src/core.rs:459-472).
Note that the source iterates over `self.conditions.conditions` only: the
separate `self.unless` list is never consulted anywhere. -/
def Transition.eval_conditions (t : Transition) (ed : EventData) :
    Except EventData Bool :=
  Transition.eval_conditions_list ed t.conditions

/-- Embedding of `Transition::execute` (src/src/core.rs:480-531): run the
transition-level `prepare` callbacks, evaluate the guards, run the
machine-level `before_state_change` callbacks chained with the
transition-level `before` callbacks, change state when `dest` is present,
then run the transition-level `after` callbacks chained with the
machine-level `after_state_change` callbacks, and return `true`. -/
def Transition.execute (t : Transition) (ed : EventData) :
    Except EventData (Bool × EventData) :=
  match ed.machine.callbacks t.prepare ed with
  | Except.error e => Except.error e
  | Except.ok _ =>
    match t.eval_conditions ed with
    | Except.error e => Except.error e
    | Except.ok c =>
      if !c then Except.ok (false, ed)
      else
        match ed.machine.callbacks (ed.machine.before_state_change ++ t.before) ed with
        | Except.error e => Except.error e
        | Except.ok _ =>
          match (if t.dest.isSome then t.change_state ed else Except.ok ed) with
          | Except.error e => Except.error e
          | Except.ok ed' =>
            match ed'.machine.callbacks (t.after ++ ed'.machine.after_state_change) ed' with
            | Except.error e => Except.error e
            | Except.ok _ => Except.ok (true, ed')

/-- The execution context after a call to `Transition::execute`: the
context a panic unwound with, or the context the call returned. -/
def execCtx : Except EventData (Bool × EventData) → EventData
  | Except.error e => e
  | Except.ok (_, e) => e

/-- Modelled from the spec: the body of `Event::_process`
(src/src/event.rs:140-158) is entirely commented out, and the `Machine`
struct's `prepare_event` and `finalize_event` lists are likewise commented
out (src/src/machine.rs:46,49), so the trigger-processing loop is missing
from the source.  Following spec section 4.4, a candidate transition is
abstracted by its outcome when executed: it declines (guards failed), it
fires, or it raises an error (carried as a numeric code). -/
inductive CandOutcome
  | declined
  | fired
  | errored (e : Nat)
deriving DecidableEq, Repr

/-- Modelled from the spec (see `CandOutcome`): an observable step of one
`Event::_process` call — the machine-wide prepare block, the attempt of one
candidate, the machine-wide finalize block, the re-raise of an error. -/
inductive PStep
  | prepareBlock
  | cand (c : CandOutcome)
  | finalizeBlock
  | reraise (e : Nat)
deriving DecidableEq, Repr

/-- Modelled from the spec: the transient outcome record of one
`Event::_process` call (the `result` and `error` fields of `EventData`,
which the commented-out source body would assign). -/
structure PCtx where
  result : Bool
  error : Option Nat
deriving DecidableEq, Repr

/-- Modelled from the spec (section 4.4): iterate the candidate list in
registration order; the first candidate that fires sets the result and
stops the iteration; an error aborts the loop.  Returns the error (if
any), the result flag, and the steps taken. -/
def candLoop : List CandOutcome → Option Nat × Bool × List PStep
  | [] => (none, false, [])
  | c :: cs =>
    match c with
    | CandOutcome.declined =>
      let r := candLoop cs
      (r.1, r.2.1, PStep.cand CandOutcome.declined :: r.2.2)
    | CandOutcome.fired => (none, true, [PStep.cand CandOutcome.fired])
    | CandOutcome.errored e => (some e, false, [PStep.cand (CandOutcome.errored e)])

/-- Modelled from the spec (section 4.4): one `Event::_process` call — run
the machine-wide prepare block, run the candidate loop, then run the
machine-wide finalize block in a guaranteed-cleanup position; an error is
attached to the context and re-raised only after the finalize block. -/
def event_process (cands : List CandOutcome) : PCtx × List PStep :=
  let r := candLoop cands
  match r.1 with
  | none =>
    ({ result := r.2.1, error := none },
      PStep.prepareBlock :: r.2.2 ++ [PStep.finalizeBlock])
  | some e =>
    ({ result := r.2.1, error := some e },
      PStep.prepareBlock :: r.2.2 ++ [PStep.finalizeBlock, PStep.reraise e])

/-- Modelled from the spec: `Machine::_process` (src/src/machine.rs:786-812)
has body `todo!()` and the machine's `_transition_queue` field is commented
out (machine.rs:139), so the dispatch discipline is missing from the
source.  Following spec section 5, unqueued mode: `trigger()` runs the
event pipeline synchronously on the caller's stack, but a `trigger()`
issued while a synchronous transition is already in flight is a fatal
re-entrancy `MachineError`, raised with the model's state attribute (the
`String`) untouched and without entering the nested pipeline. -/
def machine_process_unqueued (inFlight : Bool) (st : String)
    (run : String → Except (Error × String) (Bool × String)) :
    Except (Error × String) (Bool × String) :=
  if inFlight then
    Except.error
      (Error.MachineError
        "Attempt to process events synchronously while transition queue is not empty!",
        st)
  else run st

/-- Modelled from the spec (see `machine_process_unqueued`): a deferred
trigger invocation sitting in the transition queue, abstracted by an
identifier and by whether executing it raises (and with which error
code). -/
structure QTask where
  id : Nat
  failsWith : Option Nat
deriving DecidableEq, Repr

/-- Modelled from the spec (section 5), queued mode drain loop: pop and
execute the front entry until the queue is empty; if an invocation raises,
clear the entire remaining queue before propagating the error.  Returns
the identifiers of the invoked tasks in order, the propagated error (if
any), and the queue left behind. -/
def drain_queue : List QTask → List Nat × Option Nat × List QTask
  | [] => ([], none, [])
  | t :: ts =>
    match t.failsWith with
    | some e => ([t.id], some e, [])
    | none =>
      let r := drain_queue ts
      (t.id :: r.1, r.2.1, r.2.2)

/-! Concrete fixtures used by the closed theorems below. -/

/-- A machine with empty machine-level callback lists, `send_event = true`,
and default settings. -/
def m0 : Machine :=
  { before_state_change := []
    after_state_change := []
    queued := false
    send_event := true
    auto_transitions := true
    ignore_invalid_triggers := false
    name := "machine: "
    model_attribute := "state" }

/-- A bare state named `A`. -/
def stateA : State :=
  { name := "A", ignore_invalid_triggers := false, on_enter := [], on_exit := [] }

/-- An event context over `m0` in state `A`. -/
def ed0 : EventData :=
  { state := stateA, machine := m0, model := m0, error := none, result := false }

/-- A predicate that holds on every context. -/
def pTrue : ConditionFunction := { function := fun _ => true, name := some "always" }

/-- A predicate that fails on every context. -/
def pFalse : ConditionFunction := { function := fun _ => false, name := some "never" }

/-! Helper lemmas about the literal embedding. -/

/-- `Machine::callbacks` succeeds on the empty list and panics (inside the
`todo!()` body of `Machine::callback`) at the first entry of a non-empty
list. -/
theorem callbacks_shape (m : Machine) (fs : List TriggerFunction) (ed : EventData) :
    m.callbacks fs ed = Except.ok () ∨ m.callbacks fs ed = Except.error ed := by
  cases fs with
  | nil => exact Or.inl rfl
  | cons f rest => exact Or.inr rfl

/-- `Transition::change_state` panics on every input: its first step,
`State::from_str`, has body `todo!()`. -/
theorem change_state_panics (t : Transition) (ed : EventData) :
    t.change_state ed = Except.error ed := rfl

/-- Every run of `Transition::execute` either panics with the context
unchanged or returns `true` with the context unchanged: a `false` return
is unreachable because `Condition::check` panics before it can report a
failing guard, and no code path mutates the context. -/
theorem execute_shape (t : Transition) (ed : EventData) :
    t.execute ed = Except.error ed ∨ t.execute ed = Except.ok (true, ed) := by
  obtain ⟨src, dst, conds, unl, bef, aft, prep⟩ := t
  obtain ⟨st, m, model, err, res⟩ := ed
  obtain ⟨bsc, asc, q, se, au, ii, nm, ma⟩ := m
  cases prep with
  | cons f fs => exact Or.inl rfl
  | nil =>
  cases conds with
  | cons c cs => exact Or.inl rfl
  | nil =>
  cases bsc with
  | cons f fs => exact Or.inl rfl
  | nil =>
  cases bef with
  | cons f fs => exact Or.inl rfl
  | nil =>
  cases dst with
  | some d => exact Or.inl rfl
  | none =>
  cases aft with
  | cons f fs => exact Or.inl rfl
  | nil =>
  cases asc with
  | cons f fs => exact Or.inl rfl
  | nil => exact Or.inr rfl

/-- The candidate loop itself never emits the finalize block: finalization
happens exactly once, outside the loop. -/
theorem candLoop_no_finalize (cs : List CandOutcome) :
    PStep.finalizeBlock ∉ (candLoop cs).2.2 := by
  induction cs with
  | nil => simp [candLoop]
  | cons c cs ih =>
    cases c with
    | declined => simpa [candLoop] using ih
    | fired => simp [candLoop]
    | errored e => simp [candLoop]

/-! Claim theorems. -/

/-- An unless guard whose predicate returns `true` against `target = false`:
under the documented semantics this guard fails and must block the
transition. -/
def unlessCond : Condition := { func := pTrue, target := false }

/-- A transition carrying only the failing unless guard. -/
def tC1 : Transition :=
  { source := "A", dest := none, conditions := [], «unless» := [unlessCond]
    before := [], after := [], prepare := [] }

/-- Claim C1: `Transition::execute(ctx)` is claimed to return `true` iff
every guard passes, evaluating all `conditions` and then all `unless`
entries.  The code violates this: `eval_conditions` iterates only the
`conditions` list, so a failing `unless` entry (predicate result `true`
against `target = false`) does not stop the pipeline — `execute` completes
and returns `true`. -/
theorem unless_guard_ignored :
    tC1.execute ed0 = Except.ok (true, ed0) ∧
      tC1.unless.map (fun c => c.func.function ed0 == c.target) = [false] :=
  ⟨rfl, rfl⟩

/-- Machine-level before hook `gb`. -/
def cbGB : TriggerFunction := { name := some "gb" }

/-- Machine-level after hook `ga`. -/
def cbGA : TriggerFunction := { name := some "ga" }

/-- Transition-level before hook `tb`. -/
def cbTB : TriggerFunction := { name := some "tb" }

/-- Transition-level after hook `ta`. -/
def cbTA : TriggerFunction := { name := some "ta" }

/-- A machine with machine-level hooks `gb` and `ga`. -/
def mC2 : Machine := { m0 with before_state_change := [cbGB], after_state_change := [cbGA] }

/-- An event context over `mC2`. -/
def edC2 : EventData :=
  { state := stateA, machine := mC2, model := mC2, error := none, result := false }

/-- A passing transition with transition-level hooks `tb` and `ta` and a
real destination. -/
def tC2 : Transition :=
  { source := "A", dest := some "B", conditions := [], «unless» := []
    before := [cbTB], after := [cbTA], prepare := [] }

/-- Claim C2: with machine-level hooks `gb`/`ga` and transition-level hooks
`tb`/`ta`, `execute` is claimed to invoke the callbacks in the order `gb,
tb, state change, ta, ga`.  The code does assemble the two batches in
exactly that bracket order (`before_state_change ++ before` and
`after ++ after_state_change`), but no callback is ever invoked:
`Machine::callback` has body `todo!()` and panics at the first entry `gb`,
and the state change itself would panic in `State::from_str`. -/
theorem bracket_callbacks_panic :
    tC2.execute edC2 = Except.error edC2 ∧
      edC2.machine.before_state_change ++ tC2.before = [cbGB, cbTB] ∧
      tC2.after ++ edC2.machine.after_state_change = [cbTA, cbGA] :=
  ⟨rfl, rfl, rfl⟩

/-- Claim C3: transitions apply atomically — every invocation of
`Transition::execute` either completes the whole pipeline through the
after-callback stage (returning `true`), or leaves the execution context,
and with it the model's current-state attribute, exactly as it was before
the invocation.  This holds on the code: no implemented code path mutates
the context at all (`Machine::set_state`, the only writer of the state
attribute, has body `todo!()` and panics before writing). -/
theorem transition_execute_atomic (t : Transition) (ed : EventData) :
    (∃ ed', t.execute ed = Except.ok (true, ed')) ∨ execCtx (t.execute ed) = ed := by
  rcases execute_shape t ed with h | h
  · exact Or.inr (by rw [h]; rfl)
  · exact Or.inl ⟨ed, h⟩

/-- An internal transition (no destination) whose guards pass and which
carries one after callback. -/
def tC4 : Transition :=
  { source := "A", dest := none, conditions := [], «unless» := []
    before := [], after := [cbTA], prepare := [] }

/-- Claim C4: an internal transition (`dest = None`) with passing guards is
claimed to run the prepare, guard, before and after stages without calling
`State::exit`/`State::enter` and with the state attribute unchanged.  The
never-enter/exit and unchanged-state parts hold (the context comes back
untouched), but the stages do not run: `execute` panics inside
`Machine::callback` (`todo!()`) at the first after callback; only with
every callback list empty does the pipeline complete. -/
theorem internal_transition_after_stage_panics :
    tC4.execute ed0 = Except.error ed0 ∧
      { tC4 with after := [] }.execute ed0 = Except.ok (true, ed0) :=
  ⟨rfl, rfl⟩

/-- A condition with `target = true` over an always-true predicate. -/
def condC5 : Condition := { func := pTrue, target := true }

/-- Claim C5: `Condition{predicate: p, target: true}.check(ctx)` is claimed
to equal `p(ctx)`.  The code violates this: `check` first calls
`ConditionFunction::resolve_callable`, whose body is `todo!()`, so the call
panics before the predicate is ever invoked — here with `send_event = true`
and `p(ctx) = true`, where the claim promises the return value `true`. -/
theorem condition_check_panics_on_concrete :
    condC5.check ed0 = Except.error ed0 ∧ ed0.machine.send_event = true ∧
      condC5.func.function ed0 = true :=
  ⟨rfl, rfl, rfl⟩

/-- A transition-level prepare callback. -/
def cbPrep : TriggerFunction := { name := some "prep" }

/-- A transition carrying only one prepare callback. -/
def tC6 : Transition :=
  { source := "A", dest := none, conditions := [], «unless» := []
    before := [], after := [], prepare := [cbPrep] }

/-- Claim C6: the prepare callbacks are claimed to run unconditionally
before any guard, machine-level `prepare_event` first and transition-level
`prepare` second.  The code violates this: the `Machine` struct has no
`prepare_event` list at all (the field is commented out) and invoking the
transition-level prepare callback panics inside `Machine::callback`
(`todo!()`) — the same transition with the prepare list emptied completes,
showing the prepare stage is exactly where the call dies. -/
theorem prepare_stage_panics :
    tC6.execute ed0 = Except.error ed0 ∧
      { tC6 with prepare := [] }.execute ed0 = Except.ok (true, ed0) :=
  ⟨rfl, rfl⟩

/-- Claim C7 (spec-modelled): per `Event::_process` call, the machine-wide
finalize block runs exactly once — whether a candidate fired, all declined,
or one raised — and an error is re-raised only after the finalize block,
with the error attached to the context. -/
theorem finalize_event_runs_exactly_once (cands : List CandOutcome) :
    (event_process cands).2.count PStep.finalizeBlock = 1 ∧
      ∀ e, (event_process cands).1.error = some e →
        ∃ pre, (event_process cands).2 = pre ++ [PStep.finalizeBlock, PStep.reraise e] ∧
          PStep.finalizeBlock ∉ pre := by
  have hnf := candLoop_no_finalize cands
  cases h : (candLoop cands).1 with
  | none =>
    constructor
    · simp [event_process, h, List.count_cons, List.count_append,
        List.count_eq_zero.mpr hnf]
    · intro e he
      simp [event_process, h] at he
  | some e0 =>
    constructor
    · simp [event_process, h, List.count_cons, List.count_append,
        List.count_eq_zero.mpr hnf]
    · intro e he
      have he0 : e0 = e := by simpa [event_process, h] using he
      subst he0
      refine ⟨PStep.prepareBlock :: (candLoop cands).2.2, ?_, ?_⟩
      · simp [event_process, h]
      · intro hmem
        rcases List.mem_cons.mp hmem with heq | hmem
        · exact PStep.noConfusion heq
        · exact hnf hmem

/-- Witness for `finalize_event_runs_exactly_once` at a concrete erroring
candidate list. -/
theorem finalize_event_runs_exactly_once_witness :
    ∃ pre, (event_process [CandOutcome.errored 7]).2 =
        pre ++ [PStep.finalizeBlock, PStep.reraise 7] ∧
      PStep.finalizeBlock ∉ pre :=
  (finalize_event_runs_exactly_once [CandOutcome.errored 7]).2 7 rfl

/-- Claim C8 (spec-modelled): in unqueued mode, a `trigger()` issued while
a synchronous transition is already in flight raises `MachineError` — the
real `Error::MachineError` variant of src/src/error.rs — without running
the nested pipeline (the result does not depend on `run`) and with the
model's state attribute unchanged (the error carries `st` untouched). -/
theorem reentrant_trigger_raises_machine_error (st : String)
    (run : String → Except (Error × String) (Bool × String)) :
    machine_process_unqueued true st run =
      Except.error
        (Error.MachineError
          "Attempt to process events synchronously while transition queue is not empty!",
          st) := rfl

/-- Claim C9 (spec-modelled): if a queued invocation raises while the drain
loop is executing, the entire remaining queue is discarded before the error
propagates: the queue left behind is empty, and the invoked tasks are
exactly the non-failing prefix plus the failing task — nothing queued after
the failure runs. -/
theorem queue_cleared_on_error (q : List QTask) (e : Nat)
    (h : (drain_queue q).2.1 = some e) :
    (drain_queue q).2.2 = [] ∧
      ∃ pre t post, q = pre ++ t :: post ∧ (∀ u ∈ pre, u.failsWith = none) ∧
        t.failsWith = some e ∧ (drain_queue q).1 = pre.map QTask.id ++ [t.id] := by
  induction q with
  | nil => simp [drain_queue] at h
  | cons t ts ih =>
    cases hf : t.failsWith with
    | some e0 =>
      have hd : drain_queue (t :: ts) = ([t.id], some e0, []) := by
        simp [drain_queue, hf]
      rw [hd] at h ⊢
      obtain rfl : e0 = e := by simpa using h
      exact ⟨rfl, [], t, ts, rfl, by simp, hf, by simp⟩
    | none =>
      have hd : drain_queue (t :: ts) =
          (t.id :: (drain_queue ts).1, (drain_queue ts).2.1, (drain_queue ts).2.2) := by
        simp [drain_queue, hf]
      rw [hd] at h ⊢
      obtain ⟨h1, pre, t', post, hq, hpre, hfail, hids⟩ := ih h
      refine ⟨h1, t :: pre, t', post, by rw [hq]; rfl, ?_, hfail, by simp [hids]⟩
      intro u hu
      rcases List.mem_cons.mp hu with rfl | hu
      · exact hf
      · exact hpre u hu

/-- A queue of three tasks whose second raises error code `5`. -/
def demoQueue : List QTask := [⟨1, none⟩, ⟨2, some 5⟩, ⟨3, none⟩]

/-- Witness for `queue_cleared_on_error` at a concrete queue: task 1 runs,
task 2 raises, task 3 is discarded and the leftover queue is empty. -/
theorem queue_cleared_on_error_witness :
    (drain_queue demoQueue).2.2 = [] ∧
      ∃ pre t post, demoQueue = pre ++ t :: post ∧ (∀ u ∈ pre, u.failsWith = none) ∧
        t.failsWith = some 5 ∧ (drain_queue demoQueue).1 = pre.map QTask.id ++ [t.id] :=
  queue_cleared_on_error demoQueue 5 rfl

/-- A condition with `target = true` over an always-false predicate,
evaluated in a `send_event = true` context. -/
def condC10 : Condition := { func := pFalse, target := true }

/-- Claim C10, counterexample: the claim states that with
`ctx.machine.send_event = true`, `Condition::check` evaluates the resolved
predicate and returns a boolean without panicking.  At this concrete
condition and context `send_event` is `true`, yet `check` panics. -/
theorem condition_check_send_event_counterexample :
    condC10.check ed0 = Except.error ed0 ∧ ed0.machine.send_event = true :=
  ⟨rfl, rfl⟩

/-- Claim C10, amended: `Condition::check` is never total — it panics on
every context, whatever the value of `send_event`, because its first step
calls `ConditionFunction::resolve_callable`, whose body is `todo!()`;
neither the `send_event` branch nor the raw-argument branch is ever
reached. -/
theorem condition_check_always_panics (c : Condition) (ed : EventData) :
    c.check ed = Except.error ed := rfl

end Rustitions
